import Mathlib

/-!
Verification of the multi-source character-information collection pipeline:
a shallow embedding of the data model (`core/interfaces.py`), the collector
factory (`core/collector_factory.py`), the orchestration service
(`core/character_info_service.py`), the HTTP fetch helper
(`utils/http_client.py`), the regex-based speech-pattern extraction
(`utils/text_processor.py`, `collectors/chatgpt_collector.py`), the Wikipedia
collector (`collectors/wikipedia_collector.py`) and the fallback prompt
assembly (`generators/prompt_generator.py`), together with theorems checking
the specification's claims about them.

External effects (HTTP responses, the wikipedia library, regex match lists,
thread-pool future outcomes) are supplied as explicit environment parameters;
every Python function body is translated line by line into a pure Lean
function over those environments.
-/

/-- JSON-like values standing for the Python dictionaries / lists / scalars
the pipeline passes around (`Dict[str, Any]` and friends). Floats that are
merely carried around (durations, confidence scores) are embedded as `Rat`. -/
inductive JValue where
  | null
  | bool (b : Bool)
  | num (n : Int)
  | rat (q : Rat)
  | str (s : String)
  | arr (elems : List JValue)
  | obj (fields : List (String × JValue))

/-- Python truthiness (`bool(x)`) on the embedded value domain:
`None`, `False`, `0`, `""`, `[]`, and empty dicts are falsy. -/
def JValue.truthy : JValue → Bool
  | .null => false
  | .bool b => b
  | .num n => n != 0
  | .rat q => q != 0
  | .str s => s != ""
  | .arr elems => !elems.isEmpty
  | .obj fields => !fields.isEmpty

/-- Python `in` on strings: `needle in haystack`. The empty needle is always
contained; otherwise containment is witnessed by `splitOn` producing more
than one chunk. -/
def pyContains (haystack needle : String) : Bool :=
  needle.isEmpty || (haystack.splitOn needle).length > 1

/-- Python `s.startswith(p)` as prefix test on the character list. -/
def pyStartsWith (s pre : String) : Bool :=
  pre.data.isPrefixOf s.data

/-- Python `s.lower()` as a character-wise map (the names involved are
ASCII). -/
def pyLower (s : String) : String :=
  ⟨s.data.map Char.toLower⟩

/-- Fueled worker for `pyReplace`: replaces non-overlapping occurrences of
`pat` left to right. The fuel is the input length, which suffices because
every step consumes at least one character. -/
def pyReplaceLoop (pat rep : List Char) : Nat → List Char → List Char
  | 0, l => l
  | _ + 1, [] => []
  | fuel + 1, c :: rest =>
    if pat ≠ [] ∧ pat.isPrefixOf (c :: rest) then
      rep ++ pyReplaceLoop pat rep fuel (List.drop (pat.length - 1) rest)
    else
      c :: pyReplaceLoop pat rep fuel rest

/-- Python `s.replace(pat, rep)` for non-empty patterns (the one pattern
used, `"Collector"`, is non-empty; Python's empty-pattern interleaving is
not modelled). -/
def pyReplace (s pat rep : String) : String :=
  ⟨pyReplaceLoop pat.data rep.data s.data.length s.data⟩

/-- Dictionary field access `d.get(key, default)` on an embedded object.
On a non-object value Python would raise `AttributeError`; the embedding
totalises that case to the default, which is only reachable for inputs on
which the source program would crash. -/
def JValue.getD (v : JValue) (key : String) (default : JValue) : JValue :=
  match v with
  | .obj fields =>
    match fields.lookup key with
    | some x => x
    | none => default
  | _ => default

/-- Dictionary field access `d.get(key)` (default `None`). -/
def JValue.get (v : JValue) (key : String) : JValue :=
  v.getD key .null

/-- Wraps an optional string as the corresponding embedded value
(`None` or the string). -/
def optStr : Option String → JValue
  | some s => .str s
  | none => .null

/-- Wraps an optional float (embedded as `Rat`) as the corresponding value. -/
def optRat : Option Rat → JValue
  | some q => .rat q
  | none => .null

/-! ## Data model (`core/interfaces.py`) -/

/-- The `CollectionResult` dataclass: outcome of one collector invocation.
`results` entries are `Dict[str, Any]`, embedded as `JValue`. -/
structure CollectionResult where
  found : Bool
  error : Option String
  results : List JValue
  total_results : Nat
  query : Option String
  source : Option String
  duration : Option Rat

/-- The `CharacterQuote` dataclass. -/
structure CharacterQuote where
  text : String
  source : String
  source_url : Option String
  confidence_score : Rat
  context : Option String

/-- The `SearchResult` dataclass. -/
structure SearchResult where
  url : String
  title : String
  description : String
  content : String
  domain : String
  content_length : Nat
  speech_patterns : List String
  character_quotes : Option (List CharacterQuote)
  source : Option String
  search_query : Option String
  api_duration : Option Rat

/-- `CollectionResult.to_dict`. -/
def CollectionResult.to_dict (r : CollectionResult) : JValue :=
  .obj [("found", .bool r.found),
        ("error", optStr r.error),
        ("results", .arr r.results),
        ("total_results", .num r.total_results),
        ("query", optStr r.query),
        ("source", optStr r.source),
        ("duration", optRat r.duration)]

/-- `CharacterQuote.to_dict`. -/
def CharacterQuote.to_dict (q : CharacterQuote) : JValue :=
  .obj [("text", .str q.text),
        ("source", .str q.source),
        ("source_url", optStr q.source_url),
        ("confidence_score", .rat q.confidence_score),
        ("context", optStr q.context)]

/-- `SearchResult.to_dict`: the `character_quotes` key is only added when the
field is truthy (not `None` and non-empty). -/
def SearchResult.to_dict (r : SearchResult) : JValue :=
  let base := [("url", .str r.url),
               ("title", .str r.title),
               ("description", .str r.description),
               ("content", .str r.content),
               ("domain", .str r.domain),
               ("content_length", JValue.num r.content_length),
               ("speech_patterns", JValue.arr (r.speech_patterns.map .str)),
               ("source", optStr r.source),
               ("search_query", optStr r.search_query),
               ("api_duration", optRat r.api_duration)]
  match r.character_quotes with
  | some quotes =>
    if quotes.isEmpty then .obj base
    else .obj (base ++ [("character_quotes", .arr (quotes.map CharacterQuote.to_dict))])
  | none => .obj base

/-- `BaseCollector.__init__` computes
`self.__class__.__name__.replace("Collector", "").lower()`. -/
def source_name_of (class_name : String) : String :=
  pyLower (pyReplace class_name "Collector" "")

/-- `BaseCollector._create_error_result` (the `details` argument is accepted
and ignored by the source as well). -/
def create_error_result (src : String) (error_message : String)
    (query : Option String) : CollectionResult :=
  { found := false
    error := some error_message
    results := []
    total_results := 0
    query := query
    source := some src
    duration := none }

/-- `BaseCollector._create_success_result`. -/
def create_success_result (src : String) (results : List SearchResult)
    (query : Option String) (duration : Option Rat) : CollectionResult :=
  { found := decide (results.length > 0)
    error := none
    results := results.map SearchResult.to_dict
    total_results := results.length
    query := query
    source := some src
    duration := duration }

/-! ## Collector factory (`core/collector_factory.py`) -/

/-- The `SearchEngineType` enum. -/
inductive SearchEngineType where
  | google
  | bing
  | duckduckgo
  | chatgpt
deriving DecidableEq

/-- `CollectorFactory.determine_best_search_engine`. -/
def determine_best_search_engine (use_chatgpt : Bool) (use_bing : Bool)
    (use_duckduckgo : Bool) (use_google : Bool) : SearchEngineType :=
  if use_chatgpt then .chatgpt
  else if use_bing then .bing
  else if use_duckduckgo then .duckduckgo
  else if use_google then .google
  else .chatgpt

/-- The engine-selection call made by
`CharacterInfoService._collect_web_search_info` (flag order as at the call
site, lines 290-295). -/
def web_search_engine_choice (use_google : Bool) (use_duckduckgo : Bool)
    (use_bing : Bool) (use_chatgpt_search : Bool) : SearchEngineType :=
  determine_best_search_engine use_chatgpt_search use_bing use_duckduckgo use_google

/-- C5: the search-backend selection is the fixed precedence cascade
ChatGPT > Bing > DuckDuckGo > Google over the four boolean flags. -/
theorem determine_best_search_engine_precedence :
    ∀ use_chatgpt use_bing use_duckduckgo use_google : Bool,
      (use_chatgpt = true →
        determine_best_search_engine use_chatgpt use_bing use_duckduckgo use_google = .chatgpt) ∧
      (use_chatgpt = false → use_bing = true →
        determine_best_search_engine use_chatgpt use_bing use_duckduckgo use_google = .bing) ∧
      (use_chatgpt = false → use_bing = false → use_duckduckgo = true →
        determine_best_search_engine use_chatgpt use_bing use_duckduckgo use_google = .duckduckgo) ∧
      (use_chatgpt = false → use_bing = false → use_duckduckgo = false → use_google = true →
        determine_best_search_engine use_chatgpt use_bing use_duckduckgo use_google = .google) := by
  decide

/-- Witness for C5: instantiates the precedence theorem at concrete flag
combinations and discharges each hypothesis. -/
theorem determine_best_search_engine_precedence_witness :
    determine_best_search_engine true true true true = .chatgpt ∧
    determine_best_search_engine false true true true = .bing ∧
    determine_best_search_engine false false true true = .duckduckgo ∧
    determine_best_search_engine false false false true = .google :=
  ⟨(determine_best_search_engine_precedence true true true true).1 rfl,
   ((determine_best_search_engine_precedence false true true true).2.1) rfl rfl,
   ((determine_best_search_engine_precedence false false true true).2.2.1) rfl rfl rfl,
   ((determine_best_search_engine_precedence false false false true).2.2.2) rfl rfl rfl rfl⟩

/-- C10: with all four backend flags false the selection falls through to the
ChatGPT knowledge-base default, and therefore the web-search branch invoked
with web search disabled (no flag set) also selects the ChatGPT backend. -/
theorem determine_best_search_engine_default_chatgpt :
    determine_best_search_engine false false false false = .chatgpt ∧
    web_search_engine_choice false false false false = .chatgpt :=
  ⟨rfl, rfl⟩

/-! ## HTTP fetch helper (`utils/http_client.py`) -/

/-- Outcome of one underlying `session.get` attempt: a response body, an
`HTTPError` with a status code, a `Timeout`, a `ConnectionError`, or another
`RequestException`. Supplied per attempt index by the environment. -/
inductive AttemptOutcome where
  | success (body : String)
  | httpError (status : Nat)
  | timeoutError
  | connectionError
  | requestError

/-- The exception `BaseHTTPClient.get` ultimately raises on failure. -/
inductive RequestFailure where
  | httpError (status : Nat)
  | timeoutError
  | connectionError
  | requestError
deriving DecidableEq

/-- Result of the retry loop: the returned body or the raised exception,
together with the number of attempts actually performed. -/
structure GetOutcome where
  result : Except RequestFailure String
  attempts : Nat

/-- `HTTP_SKIP_RETRY_STATUS_CODES` (`config.py`): status codes that
`BaseHTTPClient.get` treats as terminal and never retries. -/
def http_skip_retry_status_codes : List Nat := [404, 403, 406, 410, 503]

/-- The retry loop of `BaseHTTPClient.get`
(`for attempt in range(max_retries + 1)`), starting at attempt index
`attempt`. HTTP errors whose status is in the skip list are re-raised at
once; all other failures retry while `attempt < max_retries`. -/
def get_loop (attempt_result : Nat → AttemptOutcome) (max_retries : Nat)
    (attempt : Nat) : GetOutcome :=
  match attempt_result attempt with
  | .success body => ⟨.ok body, attempt + 1⟩
  | .httpError status =>
    if status ∈ http_skip_retry_status_codes then ⟨.error (.httpError status), attempt + 1⟩
    else if _h : attempt < max_retries then get_loop attempt_result max_retries (attempt + 1)
    else ⟨.error (.httpError status), attempt + 1⟩
  | .timeoutError =>
    if _h : attempt < max_retries then get_loop attempt_result max_retries (attempt + 1)
    else ⟨.error .timeoutError, attempt + 1⟩
  | .connectionError =>
    if _h : attempt < max_retries then get_loop attempt_result max_retries (attempt + 1)
    else ⟨.error .connectionError, attempt + 1⟩
  | .requestError =>
    if _h : attempt < max_retries then get_loop attempt_result max_retries (attempt + 1)
    else ⟨.error .requestError, attempt + 1⟩
termination_by max_retries - attempt

/-- `BaseHTTPClient.get`: the loop started at attempt 0. -/
def base_http_client_get (attempt_result : Nat → AttemptOutcome)
    (max_retries : Nat) : GetOutcome :=
  get_loop attempt_result max_retries 0

/-- `validate_url`: adds a scheme when missing, rejects bare relative
paths (returns the empty string). -/
def validate_url (url : String) : String :=
  if url = "" then ""
  else if !(pyStartsWith url "http://" || pyStartsWith url "https://") then
    if pyStartsWith url "//" then "https:" ++ url
    else if pyStartsWith url "/" then ""
    else "https://" ++ url
  else url

/-- `safe_http_get`: validates the URL (returning `none` when invalid), runs
the retried GET, and converts every raised exception into `none`. -/
def safe_http_get (attempt_result : Nat → AttemptOutcome) (url : String)
    (max_retries : Nat) : Option String :=
  let validated_url := validate_url url
  if validated_url = "" then none
  else
    match (base_http_client_get attempt_result max_retries).result with
    | .ok body => some body
    | .error _ => none

/-- C4: an attempt that yields an HTTP error with a status in
{404, 403, 406, 410, 503} is terminal: the loop stops at that very attempt
(so an error on the first attempt means exactly one attempt overall), the
error is re-raised, and `safe_http_get` converts it to `none`. -/
theorem terminal_http_error_no_retry :
    ∀ (attempt_result : Nat → AttemptOutcome) (max_retries k status : Nat)
      (url : String),
      status ∈ http_skip_retry_status_codes →
      attempt_result k = .httpError status →
      get_loop attempt_result max_retries k = ⟨.error (.httpError status), k + 1⟩ ∧
      (attempt_result 0 = .httpError status →
        base_http_client_get attempt_result max_retries =
          ⟨.error (.httpError status), 1⟩ ∧
        safe_http_get attempt_result url max_retries = none) := by
  intro attempt_result max_retries k status url hmem hk
  have hloop : ∀ j, attempt_result j = .httpError status →
      get_loop attempt_result max_retries j = ⟨.error (.httpError status), j + 1⟩ := by
    intro j hj
    rw [get_loop, hj]
    simp [hmem]
  refine ⟨hloop k hk, ?_⟩
  intro h0
  have hfirst : base_http_client_get attempt_result max_retries =
      ⟨.error (.httpError status), 1⟩ := by
    unfold base_http_client_get
    exact hloop 0 h0
  refine ⟨hfirst, ?_⟩
  unfold safe_http_get
  rw [hfirst]
  by_cases hv : validate_url url = "" <;> simp [hv]

/-- Witness for C4: a URL answering HTTP 404 on every attempt yields the
re-raised error after exactly one attempt and `none` from `safe_http_get`. -/
theorem terminal_http_error_no_retry_witness :
    get_loop (fun _ => .httpError 404) 2 0 = ⟨.error (.httpError 404), 1⟩ ∧
    safe_http_get (fun _ => .httpError 404) "https://example.com/missing" 2 = none := by
  have h := terminal_http_error_no_retry (fun _ => .httpError 404) 2 0 404
    "https://example.com/missing" (by decide) rfl
  exact ⟨h.1, (h.2 rfl).2⟩

/-- A successful prefix test forces the subject string to start with the
first character of the tested prefix. -/
theorem pyStartsWith_head {url p : String} {d : Char} {pt : List Char}
    (hp : p.data = d :: pt) (h : pyStartsWith url p = true) :
    ∃ t, url.data = d :: t := by
  unfold pyStartsWith at h
  rw [hp] at h
  cases hu : url.data with
  | nil => rw [hu] at h; simp [List.isPrefixOf] at h
  | cons c t =>
    rw [hu] at h
    simp [List.isPrefixOf] at h
    exact ⟨t, by rw [h.1]⟩

/-- A prefix test fails when the heads differ. -/
theorem pyStartsWith_ne_head {url p : String} {c d : Char} {t pt : List Char}
    (hu : url.data = c :: t) (hp : p.data = d :: pt) (hne : d ≠ c) :
    pyStartsWith url p = false := by
  unfold pyStartsWith
  rw [hu, hp]
  simp [List.isPrefixOf, hne]

/-- A string whose character list is a cons is not the empty string. -/
theorem string_ne_empty_of_data_cons {url : String} {c : Char} {t : List Char}
    (hu : url.data = c :: t) : url ≠ "" := by
  intro he
  rw [he] at hu
  simp at hu

/-- C6: URL validation in the fetch helper rejects bare relative paths
(single leading slash: empty result from `validate_url` and `none` from
`safe_http_get`), prepends `https:` to schemeless `//host` strings, and
leaves strings that already carry an `http://` or `https://` scheme
unchanged. -/
theorem validate_url_spec :
    ∀ url : String,
      (pyStartsWith url "/" = true → pyStartsWith url "//" = false →
        validate_url url = "" ∧
        ∀ (attempt_result : Nat → AttemptOutcome) (max_retries : Nat),
          safe_http_get attempt_result url max_retries = none) ∧
      (pyStartsWith url "//" = true → validate_url url = "https:" ++ url) ∧
      ((pyStartsWith url "http://" = true ∨ pyStartsWith url "https://" = true) →
        validate_url url = url) := by
  intro url
  refine ⟨?_, ?_, ?_⟩
  · intro h1 h2
    obtain ⟨t, hu⟩ := pyStartsWith_head (p := "/") rfl h1
    have hne := string_ne_empty_of_data_cons hu
    have hhttp : pyStartsWith url "http://" = false :=
      pyStartsWith_ne_head hu rfl (by decide)
    have hhttps : pyStartsWith url "https://" = false :=
      pyStartsWith_ne_head hu rfl (by decide)
    have hval : validate_url url = "" := by
      unfold validate_url
      simp [hne, hhttp, hhttps, h2, h1]
    refine ⟨hval, ?_⟩
    intro attempt_result max_retries
    unfold safe_http_get
    simp [hval]
  · intro h2
    obtain ⟨t, hu⟩ := pyStartsWith_head (p := "//") rfl h2
    have hne := string_ne_empty_of_data_cons hu
    have hhttp : pyStartsWith url "http://" = false :=
      pyStartsWith_ne_head hu rfl (by decide)
    have hhttps : pyStartsWith url "https://" = false :=
      pyStartsWith_ne_head hu rfl (by decide)
    unfold validate_url
    simp [hne, hhttp, hhttps, h2]
  · intro h
    cases h with
    | inl hh =>
      obtain ⟨t, hu⟩ := pyStartsWith_head (p := "http://") rfl hh
      have hne := string_ne_empty_of_data_cons hu
      unfold validate_url
      simp [hne, hh]
    | inr hh =>
      obtain ⟨t, hu⟩ := pyStartsWith_head (p := "https://") rfl hh
      have hne := string_ne_empty_of_data_cons hu
      unfold validate_url
      simp [hne, hh]

/-- Witness for C6: evaluates the three clauses at `"/foo"`, `"//foo"` and
`"https://foo"`. -/
theorem validate_url_spec_witness :
    validate_url "/foo" = "" ∧
    safe_http_get (fun _ => .success "body") "/foo" 2 = none ∧
    validate_url "//foo" = "https://foo" ∧
    validate_url "https://foo" = "https://foo" := by
  have ha := (validate_url_spec "/foo").1 (by decide) (by decide)
  have hb := (validate_url_spec "//foo").2.1 (by decide)
  have hc := (validate_url_spec "https://foo").2.2 (Or.inr (by decide))
  exact ⟨ha.1, ha.2 (fun _ => .success "body") 2, hb, hc⟩

/-! ## Speech-pattern extraction (`utils/text_processor.py`,
`collectors/chatgpt_collector.py`) -/

/-- The four regex patterns the extraction uses, kept verbatim. Their
semantics enters the model through the `findall` environment below. -/
def pronoun_regex : String := "一人称[：:]\\s*[「『\"]?([^」』\"\\n。、]+)[」』\"]?"

/-- Regex for sentence-ending patterns. -/
def ending_regex : String := "語尾[：:]\\s*[「『\"]?([^」』\"\\n。、]+)[」』\"]?"

/-- Regex for catchphrase patterns. -/
def habit_regex : String := "口癖[：:]\\s*[「『\"]?([^」』\"\\n。、]+)[」』\"]?"

/-- Regex for quoted spans. -/
def quote_regex : String := "[「『\"]([^」』\"]+)[」』\"]"

/-- `CHATGPT_MAX_QUOTES` (`config.py`). -/
def chatgpt_max_quotes : Nat := 5

/-- `CHATGPT_MIN_QUOTE_LENGTH` (`config.py`). -/
def chatgpt_min_quote_length : Nat := 3

/-- `CHATGPT_MAX_PATTERNS` (`config.py`). -/
def chatgpt_max_patterns : Nat := 10

/-- `TextProcessor.extract_speech_patterns_from_chatgpt_result`. The
`findall` parameter supplies, for any regex and subject text, the list of
`re.findall` matches, so the theorems below hold for every possible regex
behaviour. The literal caps 5 (quotes), 3 (min quote length) and 10 (final
cap) are written as in the source. -/
def extract_speech_patterns_from_chatgpt_result
    (findall : String → String → List String)
    (text character_name : String) : List String :=
  if text = "" then []
  else
    let patterns :=
      ((findall pronoun_regex text).map (fun m => "一人称: " ++ m.trim))
      ++ ((findall ending_regex text).map (fun m => "語尾: " ++ m.trim))
      ++ ((findall habit_regex text).map (fun m => "口癖: " ++ m.trim))
      ++ ((((findall quote_regex text).take 5).filter
            (fun quote => quote.length > 3 &&
              !(pyContains (pyLower quote) (pyLower character_name)))).map
            (fun quote => "セリフ例: " ++ quote))
      ++ (if pyContains text "特徴" || pyContains text "表現" then
            ["表現: 特徴的な話し方に関する情報"] else [])
    patterns.take 10

/-- `ChatGPTCollector._extract_speech_patterns_from_result`: the same
algorithm with the caps drawn from the named config constants. -/
def chatgpt_extract_speech_patterns_from_result
    (findall : String → String → List String)
    (text character_name : String) : List String :=
  if text = "" then []
  else
    let patterns :=
      ((findall pronoun_regex text).map (fun m => "一人称: " ++ m.trim))
      ++ ((findall ending_regex text).map (fun m => "語尾: " ++ m.trim))
      ++ ((findall habit_regex text).map (fun m => "口癖: " ++ m.trim))
      ++ ((((findall quote_regex text).take chatgpt_max_quotes).filter
            (fun quote => quote.length > chatgpt_min_quote_length &&
              !(pyContains (pyLower quote) (pyLower character_name)))).map
            (fun quote => "セリフ例: " ++ quote))
      ++ (if pyContains text "特徴" || pyContains text "表現" then
            ["表現: 特徴的な話し方に関する情報"] else [])
    patterns.take chatgpt_max_patterns

/-- C7: both regex-based extraction routines are total functions of their
inputs (the embedding returns a value for every input, mirroring the
source's blanket exception handler), never produce more than 10 patterns,
and return the empty list on empty input — for every possible behaviour of
the regex engine. -/
theorem extract_speech_patterns_capped :
    ∀ (findall : String → String → List String) (text character_name : String),
      (extract_speech_patterns_from_chatgpt_result findall text character_name).length ≤ 10 ∧
      (text = "" →
        extract_speech_patterns_from_chatgpt_result findall text character_name = []) ∧
      (chatgpt_extract_speech_patterns_from_result findall text character_name).length ≤ 10 ∧
      (text = "" →
        chatgpt_extract_speech_patterns_from_result findall text character_name = []) := by
  intro findall text character_name
  refine ⟨?_, ?_, ?_, ?_⟩
  · unfold extract_speech_patterns_from_chatgpt_result
    split
    · simp
    · simp
  · intro h
    simp [extract_speech_patterns_from_chatgpt_result, h]
  · unfold chatgpt_extract_speech_patterns_from_result
    split
    · simp
    · simp [chatgpt_max_patterns]
  · intro h
    simp [chatgpt_extract_speech_patterns_from_result, h]

/-- Witness for C7: the cap and the empty-input clause evaluated at a
concrete regex environment returning twenty matches everywhere. -/
theorem extract_speech_patterns_capped_witness :
    (extract_speech_patterns_from_chatgpt_result
      (fun _ _ => List.replicate 20 "僕") "一人称: 僕" "テスト").length ≤ 10 ∧
    extract_speech_patterns_from_chatgpt_result
      (fun _ _ => List.replicate 20 "僕") "" "テスト" = [] ∧
    chatgpt_extract_speech_patterns_from_result
      (fun _ _ => List.replicate 20 "僕") "" "テスト" = [] :=
  ⟨(extract_speech_patterns_capped (fun _ _ => List.replicate 20 "僕")
      "一人称: 僕" "テスト").1,
   (extract_speech_patterns_capped (fun _ _ => List.replicate 20 "僕")
      "" "テスト").2.1 rfl,
   (extract_speech_patterns_capped (fun _ _ => List.replicate 20 "僕")
      "" "テスト").2.2.2 rfl⟩

/-! ## Wikipedia collector (`collectors/wikipedia_collector.py`) -/

/-- `SAMPLE_QUALITY_MIN_LENGTH` (`config.py`), used as the search-result
count and the disambiguation-option slice. -/
def sample_quality_min_length : Nat := 3

/-- `SAMPLE_PHRASES_MAX` (`config.py`), used as the category and
option-scan caps. -/
def sample_phrases_max : Nat := 20

/-- `WIKIPEDIA_SUMMARY_LIMIT` (`config.py`). -/
def wikipedia_summary_limit : Nat := 1000

/-- `MULTIPLIER_DOUBLE` (`config.py`). -/
def multiplier_double : Nat := 2

/-- `WikipediaCollector._select_best_character_option`: scores the first
`SAMPLE_PHRASES_MAX` candidates (+2 per character indicator, -3 per
exclusion indicator, +5 when the original name occurs) and keeps the first
strictly-best candidate, defaulting to the first option. -/
def select_best_character_option (original_name : String)
    (options : List String) : String :=
  match options with
  | [] => original_name
  | first :: _ =>
    let character_indicators := [original_name,
      "キャラクター", "character", "アニメ", "anime", "マンガ", "manga", "漫画",
      "ゲーム", "game", "フィクション", "fiction", "作品", "登場人物"]
    let exclude_indicators := ["聖書", "宗教", "religion", "事件", "犯罪", "crime",
      "政治", "politics", "企業", "company", "会社", "組織", "団体", "学校",
      "school", "大学"]
    let step := fun (best : Int × String) (option : String) =>
      let option_lower := pyLower option
      let indicator_score : Int :=
        2 * (character_indicators.filter
          (fun indicator => pyContains option_lower (pyLower indicator))).length
      let exclude_score : Int :=
        3 * (exclude_indicators.filter
          (fun ex => pyContains option_lower (pyLower ex))).length
      let name_score : Int :=
        if pyContains option_lower (pyLower original_name) then 5 else 0
      let score := indicator_score - exclude_score + name_score
      if score > best.1 then (score, option) else best
    ((options.take sample_phrases_max).foldl step (-1, first)).2

/-- The page object returned by `wikipedia.page` — the fields the collector
reads. The source guards `categories` with `hasattr`; the embedding's pages
always carry the field. -/
structure WikiPage where
  title : String
  summary : String
  content : String
  url : String
  categories : List String

/-- Outcome of a `wikipedia.page(title)` call: a page, a
`DisambiguationError` (options plus its string form), a `PageError`, or any
other exception. -/
inductive PageFetch where
  | ok (page : WikiPage)
  | disambiguationError (options : List String) (msg : String)
  | pageError (msg : String)
  | otherError (msg : String)

/-- Environment for one `collect_info` call: the `wikipedia.search` outcome
(a result list, or the message of a raised exception, which the source's
generic `except Exception` handler catches) and the `wikipedia.page`
behaviour per title. -/
structure WikiEnv where
  search : Except String (List String)
  page : String → PageFetch

/-- The `result_data` dictionary built on the plain success path. -/
def wiki_result_data (page : WikiPage) : JValue :=
  .obj [("title", .str page.title),
        ("summary", .str (page.summary.take wikipedia_summary_limit)),
        ("content", .str (page.content.take (wikipedia_summary_limit * multiplier_double))),
        ("url", .str page.url),
        ("categories", .arr ((page.categories.take sample_phrases_max).map .str))]

/-- The `result_data` dictionary built on the disambiguation path, which
additionally records the first candidates under `other_options`. -/
def wiki_disambiguation_result_data (page : WikiPage)
    (options : List String) : JValue :=
  .obj [("title", .str page.title),
        ("summary", .str (page.summary.take wikipedia_summary_limit)),
        ("content", .str (page.content.take (wikipedia_summary_limit * multiplier_double))),
        ("url", .str page.url),
        ("categories", .arr ((page.categories.take sample_phrases_max).map .str)),
        ("other_options", .arr ((options.take sample_quality_min_length).map .str))]

/-- `WikipediaCollector.collect_info`: search, pick the best candidate,
fetch the page; on `DisambiguationError` retry with the best of the offered
options (any exception there yields an error result); `PageError` and other
exceptions yield error results. The success and disambiguation paths build
`CollectionResult` directly, leaving `query`, `source` and `duration` at
their dataclass defaults (`None`). -/
def wikipedia_collect_info (env : WikiEnv) (name : String) : CollectionResult :=
  match env.search with
  | .error msg =>
    create_error_result "wikipedia" ("Wikipedia取得エラー: " ++ msg) (some name)
  | .ok search_results =>
    if search_results.isEmpty then
      create_error_result "wikipedia"
        ("'" ++ name ++ "'に関するWikipediaページが見つかりませんでした") (some name)
    else
      match env.page (select_best_character_option name search_results) with
      | .ok page =>
        { found := true
          error := none
          results := [wiki_result_data page]
          total_results := 1
          query := none
          source := none
          duration := none }
      | .disambiguationError options _ =>
        let best_option := select_best_character_option name options
        match env.page best_option with
        | .ok page =>
          { found := true
            error := some ("曖昧さ回避: " ++ best_option ++ " を選択しました")
            results := [wiki_disambiguation_result_data page options]
            total_results := 1
            query := none
            source := none
            duration := none }
        | .disambiguationError _ inner_msg =>
          create_error_result "wikipedia" ("曖昧さ回避エラー: " ++ inner_msg) (some name)
        | .pageError inner_msg =>
          create_error_result "wikipedia" ("曖昧さ回避エラー: " ++ inner_msg) (some name)
        | .otherError inner_msg =>
          create_error_result "wikipedia" ("曖昧さ回避エラー: " ++ inner_msg) (some name)
      | .pageError _ =>
        create_error_result "wikipedia"
          ("'" ++ name ++ "'のWikipediaページが存在しません") (some name)
      | .otherError msg =>
        create_error_result "wikipedia" ("Wikipedia取得エラー: " ++ msg) (some name)

/-- C1: every `CollectionResult` built by the base helpers or by the
Wikipedia collector satisfies `total_results = results.length` and
`found ↔ total_results > 0`; moreover whenever `found` holds together with
a non-null `error` (the disambiguation case) there is exactly one result.
The remaining collectors return exclusively through the two base helpers. -/
theorem collection_result_invariant :
    (∀ (src error_message : String) (query : Option String),
      (create_error_result src error_message query).total_results =
        (create_error_result src error_message query).results.length ∧
      ((create_error_result src error_message query).found = true ↔
        0 < (create_error_result src error_message query).total_results)) ∧
    (∀ (src : String) (results : List SearchResult) (query : Option String)
        (duration : Option Rat),
      (create_success_result src results query duration).total_results =
        (create_success_result src results query duration).results.length ∧
      ((create_success_result src results query duration).found = true ↔
        0 < (create_success_result src results query duration).total_results)) ∧
    (∀ (env : WikiEnv) (name : String),
      (wikipedia_collect_info env name).total_results =
        (wikipedia_collect_info env name).results.length ∧
      ((wikipedia_collect_info env name).found = true ↔
        0 < (wikipedia_collect_info env name).total_results) ∧
      ((wikipedia_collect_info env name).found = false ∨
        (wikipedia_collect_info env name).error = none ∨
        (wikipedia_collect_info env name).total_results = 1)) := by
  refine ⟨?_, ?_, ?_⟩
  · intro src error_message query
    simp [create_error_result]
  · intro src results query duration
    simp [create_success_result]
  · intro env name
    unfold wikipedia_collect_info
    split
    · simp [create_error_result]
    · split
      · simp [create_error_result]
      · split
        · simp
        · dsimp only
          split <;> simp [create_error_result]
        · simp [create_error_result]
        · simp [create_error_result]

/-- A concrete environment in which the Wikipedia search succeeds and the
page fetch returns a plain page, driving `collect_info` down its success
path. -/
def wiki_env_example : WikiEnv :=
  { search := .ok ["ピカチュウ"]
    page := fun _ =>
      .ok { title := "ピカチュウ"
            summary := "ポケットモンスターのキャラクター"
            content := "ポケットモンスターのキャラクター。"
            url := "https://ja.wikipedia.org/wiki/ピカチュウ"
            categories := ["架空の動物"] } }

/-- Counterexample for C8: on the Wikipedia collector's success path the
returned result has `source = None`, not the lower-cased class name
(`source_name_of "WikipediaCollector" = "wikipedia"`), because those paths
construct `CollectionResult` directly without passing `source`. -/
theorem wikipedia_success_source_counterexample :
    (wikipedia_collect_info wiki_env_example "ピカチュウ").found = true ∧
    (wikipedia_collect_info wiki_env_example "ピカチュウ").source ≠
      some (source_name_of "WikipediaCollector") := by
  refine ⟨rfl, ?_⟩
  intro h
  have hnone : (wikipedia_collect_info wiki_env_example "ピカチュウ").source = none := rfl
  rw [hnone] at h
  exact Option.noConfusion h

/-- C8 (amended): results built via the base helpers carry the producing
collector's lower-cased class name (with the `Collector` suffix removed) in
`source` — that name computation is itself checked for all five collector
classes — whereas the Wikipedia collector's direct success and
disambiguation constructions leave `source` as `None`: every
`collect_info` outcome there has either `found` true with `source = None`
or `found` false with `source = "wikipedia"` (via the error helper). -/
theorem source_field_characterization :
    (∀ (src error_message : String) (query : Option String),
      (create_error_result src error_message query).source = some src) ∧
    (∀ (src : String) (results : List SearchResult) (query : Option String)
        (duration : Option Rat),
      (create_success_result src results query duration).source = some src) ∧
    source_name_of "WikipediaCollector" = "wikipedia" ∧
    source_name_of "GoogleCollector" = "google" ∧
    source_name_of "BingCollector" = "bing" ∧
    source_name_of "DuckDuckGoCollector" = "duckduckgo" ∧
    source_name_of "ChatGPTCollector" = "chatgpt" ∧
    (∀ (env : WikiEnv) (name : String),
      ((wikipedia_collect_info env name).found = true ∧
        (wikipedia_collect_info env name).source = none) ∨
      ((wikipedia_collect_info env name).found = false ∧
        (wikipedia_collect_info env name).source = some "wikipedia")) := by
  refine ⟨fun _ _ _ => rfl, fun _ _ _ _ => rfl, by decide, by decide, by decide,
    by decide, by decide, ?_⟩
  intro env name
  unfold wikipedia_collect_info
  split
  · exact Or.inr ⟨rfl, rfl⟩
  · split
    · exact Or.inr ⟨rfl, rfl⟩
    · split
      · exact Or.inl ⟨rfl, rfl⟩
      · dsimp only
        split
        · exact Or.inl ⟨rfl, rfl⟩
        · exact Or.inr ⟨rfl, rfl⟩
        · exact Or.inr ⟨rfl, rfl⟩
        · exact Or.inr ⟨rfl, rfl⟩
      · exact Or.inr ⟨rfl, rfl⟩
      · exact Or.inr ⟨rfl, rfl⟩

/-! ## Orchestration service (`core/character_info_service.py`) and the
YouTube collector's result shapes (`collectors/youtube_collector.py`) -/

/-- Inputs of one `YouTubeCollector.collect_info` run, abstracted at the
level of its three return sites: no URLs supplied; the main loop completed
with the listed transcripts, phrases, quotes and analysis; or some statement
inside the `try` block raised. The loop internals (subtitle download,
phrase filtering) are irrelevant to the claims and enter only through these
aggregated values. -/
inductive YtRun where
  | noUrls
  | completed (transcripts : List JValue) (sample_phrases : List String)
      (character_quotes : List JValue) (processed_urls : Nat)
      (pattern_analysis : JValue)
  | raised (msg : String)

/-- `YouTubeCollector.collect_info`: the three return dictionaries, each of
which carries a `found` field. -/
def youtube_collect_info : YtRun → JValue
  | .noUrls =>
    .obj [("found", .bool false),
          ("error", .str "YouTube URLが提供されませんでした"),
          ("transcripts", .arr []),
          ("total_videos", .num 0),
          ("sample_phrases", .arr [])]
  | .completed transcripts sample_phrases character_quotes processed_urls pattern_analysis =>
    .obj [("found", .bool (decide (transcripts.length > 0))),
          ("error", if transcripts.length > 0 then .null
                    else .str "字幕付き動画が見つかりませんでした"),
          ("transcripts", .arr transcripts),
          ("total_videos", .num transcripts.length),
          ("sample_phrases", .arr (sample_phrases.map .str)),
          ("character_quotes", .arr character_quotes),
          ("processed_urls", .num processed_urls),
          ("successful_extractions", .num transcripts.length),
          ("speech_pattern_analysis", pattern_analysis)]
  | .raised msg =>
    .obj [("found", .bool false),
          ("error", .str ("YouTube字幕収集エラー: " ++ msg)),
          ("transcripts", .arr []),
          ("total_videos", .num 0),
          ("sample_phrases", .arr [])]

/-- `CharacterInfoService._collect_wikipedia_info`: the wrapped collector
call either returns a `CollectionResult` (converted via `to_dict`) or
raises, in which case a dictionary with a prefixed error message is built. -/
def service_collect_wikipedia_info (inner : Except String CollectionResult) : JValue :=
  match inner with
  | .ok result => result.to_dict
  | .error e =>
    .obj [("found", .bool false),
          ("error", .str ("Wikipedia情報収集エラー: " ++ e)),
          ("title", .null),
          ("summary", .null),
          ("content", .null),
          ("url", .null),
          ("categories", .arr [])]

/-- `CharacterInfoService._collect_web_search_info`: engine selection plus
the wrapped collector call; any exception (including a missing ChatGPT API
key raised by the factory) yields the prefixed error dictionary. -/
def service_collect_web_search_info (inner : Except String CollectionResult) : JValue :=
  match inner with
  | .ok result => result.to_dict
  | .error e =>
    .obj [("found", .bool false),
          ("error", .str ("Web検索エラー: " ++ e)),
          ("results", .arr []),
          ("total_results", .num 0)]

/-- `CharacterInfoService._collect_youtube_info`: returns the YouTube
collector's dictionary unchanged on success, or the prefixed error
dictionary when anything in the branch raises. -/
def service_collect_youtube_info (inner : Except String YtRun) : JValue :=
  match inner with
  | .ok run => youtube_collect_info run
  | .error e =>
    .obj [("found", .bool false),
          ("error", .str ("YouTube情報収集エラー: " ++ e)),
          ("transcripts", .arr []),
          ("total_videos", .num 0),
          ("sample_phrases", .arr [])]

/-- Execution of one thread-pool branch as observed through
`future.result(timeout=...)`: the branch function completed on its inputs,
the wait timed out (`concurrent.futures.TimeoutError`), or the wait raised
some other exception. -/
inductive BranchRun (α : Type) where
  | completed (inner : α)
  | timed_out
  | future_raised (msg : String)

/-- The synthetic result stored when the Wikipedia or web-search branch
times out or raises: `{"found": False, "error": msg, "results": [],
"total_results": 0}`. -/
def branch_failure_result (msg : String) : JValue :=
  .obj [("found", .bool false),
        ("error", .str msg),
        ("results", .arr []),
        ("total_results", .num 0)]

/-- The synthetic result stored when the YouTube branch times out or
raises. -/
def youtube_branch_failure_result (msg : String) : JValue :=
  .obj [("found", .bool false),
        ("error", .str msg),
        ("transcripts", .arr []),
        ("total_videos", .num 0),
        ("sample_phrases", .arr [])]

/-- The result stored when YouTube collection is disabled. -/
def youtube_disabled_result : JValue :=
  .obj [("found", .bool false),
        ("error", .str "YouTube情報収集が無効化されています"),
        ("transcripts", .arr []),
        ("total_videos", .num 0),
        ("sample_phrases", .arr []),
        ("skipped", .bool true)]

/-- `CharacterInfoService.collect_character_info`: launches the three
branches, waits on each future with its own timeout (30s / 90s / 120s) and
assembles the aggregate record in source order. Timeouts and exceptions on
a branch fill that branch's slot with a synthetic failure dictionary; when
`use_youtube` is false the YouTube slot records the skip. -/
def collect_character_info (name : String) (use_youtube : Bool)
    (wiki : BranchRun (Except String CollectionResult))
    (web : BranchRun (Except String CollectionResult))
    (yt : BranchRun (Except String YtRun)) : List (String × JValue) :=
  let wikipedia_info :=
    match wiki with
    | .completed inner => service_collect_wikipedia_info inner
    | .timed_out => branch_failure_result "タイムアウト"
    | .future_raised msg => branch_failure_result msg
  let google_search_results :=
    match web with
    | .completed inner => service_collect_web_search_info inner
    | .timed_out => branch_failure_result "タイムアウト（90秒）"
    | .future_raised msg => branch_failure_result msg
  let youtube_transcripts :=
    if use_youtube then
      match yt with
      | .completed inner => service_collect_youtube_info inner
      | .timed_out => youtube_branch_failure_result "タイムアウト"
      | .future_raised msg => youtube_branch_failure_result msg
    else youtube_disabled_result
  [("name", .str name),
   ("wikipedia_info", wikipedia_info),
   ("google_search_results", google_search_results),
   ("youtube_transcripts", youtube_transcripts)]

/-- Checks that an aggregate slot holds a dictionary containing a `found`
field. -/
def slot_has_found_field (agg : List (String × JValue)) (key : String) : Bool :=
  match agg.lookup key with
  | some (.obj fields) => (fields.lookup "found").isSome
  | _ => false

/-- Every `CollectionResult.to_dict` dictionary carries a `found` field. -/
theorem to_dict_has_found (r : CollectionResult) :
    ((match r.to_dict with
      | .obj fields => fields.lookup "found"
      | _ => none)).isSome = true := by
  simp [CollectionResult.to_dict, List.lookup]

/-- C2: for every orchestration run — any flag setting, and any mix of
success, exception and timeout across the three branches — the aggregate
contains all three keys `wikipedia_info`, `google_search_results` and
`youtube_transcripts`, each holding a dictionary with a `found` field. -/
theorem aggregate_always_has_three_found_slots :
    ∀ (name : String) (use_youtube : Bool)
      (wiki web : BranchRun (Except String CollectionResult))
      (yt : BranchRun (Except String YtRun)),
      slot_has_found_field (collect_character_info name use_youtube wiki web yt)
        "wikipedia_info" = true ∧
      slot_has_found_field (collect_character_info name use_youtube wiki web yt)
        "google_search_results" = true ∧
      slot_has_found_field (collect_character_info name use_youtube wiki web yt)
        "youtube_transcripts" = true := by
  intro name use_youtube wiki web yt
  refine ⟨?_, ?_, ?_⟩
  · cases wiki with
    | completed inner =>
      cases inner with
      | ok r =>
        simp [slot_has_found_field, collect_character_info, List.lookup,
          service_collect_wikipedia_info, CollectionResult.to_dict]
      | error e =>
        simp [slot_has_found_field, collect_character_info, List.lookup,
          service_collect_wikipedia_info]
    | timed_out =>
      simp [slot_has_found_field, collect_character_info, List.lookup,
        branch_failure_result]
    | future_raised msg =>
      simp [slot_has_found_field, collect_character_info, List.lookup,
        branch_failure_result]
  · cases web with
    | completed inner =>
      cases inner with
      | ok r =>
        simp [slot_has_found_field, collect_character_info, List.lookup,
          service_collect_web_search_info, CollectionResult.to_dict]
      | error e =>
        simp [slot_has_found_field, collect_character_info, List.lookup,
          service_collect_web_search_info]
    | timed_out =>
      simp [slot_has_found_field, collect_character_info, List.lookup,
        branch_failure_result]
    | future_raised msg =>
      simp [slot_has_found_field, collect_character_info, List.lookup,
        branch_failure_result]
  · cases huy : use_youtube with
    | false =>
      simp [slot_has_found_field, collect_character_info, List.lookup,
        youtube_disabled_result]
    | true =>
      cases yt with
      | completed inner =>
        cases inner with
        | ok run =>
          cases run <;>
            simp [slot_has_found_field, collect_character_info, List.lookup,
              service_collect_youtube_info, youtube_collect_info]
        | error e =>
          simp [slot_has_found_field, collect_character_info, List.lookup,
            service_collect_youtube_info]
      | timed_out =>
        simp [slot_has_found_field, collect_character_info, List.lookup,
          youtube_branch_failure_result]
      | future_raised msg =>
        simp [slot_has_found_field, collect_character_info, List.lookup,
          youtube_branch_failure_result]

/-- C3: when the web-search branch hits its 90-second timeout, the
aggregate's `google_search_results` slot is exactly
`{"found": False, "error": "タイムアウト（90秒）", "results": [],
"total_results": 0}`, while the `wikipedia_info` and `youtube_transcripts`
slots coincide with those of the same run with any other web-branch
outcome. -/
theorem web_search_timeout_slot :
    ∀ (name : String) (use_youtube : Bool)
      (wiki : BranchRun (Except String CollectionResult))
      (web : BranchRun (Except String CollectionResult))
      (yt : BranchRun (Except String YtRun)),
      (collect_character_info name use_youtube wiki .timed_out yt).lookup
          "google_search_results" =
        some (.obj [("found", .bool false),
                    ("error", .str "タイムアウト（90秒）"),
                    ("results", .arr []),
                    ("total_results", .num 0)]) ∧
      (collect_character_info name use_youtube wiki .timed_out yt).lookup
          "wikipedia_info" =
        (collect_character_info name use_youtube wiki web yt).lookup
          "wikipedia_info" ∧
      (collect_character_info name use_youtube wiki .timed_out yt).lookup
          "youtube_transcripts" =
        (collect_character_info name use_youtube wiki web yt).lookup
          "youtube_transcripts" := by
  intro name use_youtube wiki web yt
  refine ⟨?_, ?_, ?_⟩
  · simp [collect_character_info, List.lookup, branch_failure_result]
  · simp [collect_character_info, List.lookup]
  · simp [collect_character_info, List.lookup]

/-! ## Prompt assembly fallback (`generators/prompt_generator.py`) -/

/-- `MAX_KEY_INFORMATION` (`config.py`, `config.processing.max_key_information`). -/
def max_key_information : Nat := 5

/-- `WIKIPEDIA_FALLBACK_LIMIT` (`config.py`,
`config.collector.wikipedia_fallback_limit`). -/
def wikipedia_fallback_limit : Nat := 500

mutual
/-- Python `str()` on the embedded value domain, used where the template
interpolates a value (`f"{name}"` etc.). Python's `repr` quoting of strings
nested in containers is elided; those container cases are only reachable
for degenerate records. -/
def pyStr : JValue → String
  | .null => "None"
  | .bool true => "True"
  | .bool false => "False"
  | .num n => toString n
  | .rat q => toString q
  | .str s => s
  | .arr elems => "[" ++ String.intercalate ", " (pyStrList elems) ++ "]"
  | .obj fields => "\x7b" ++ String.intercalate ", " (pyStrFields fields) ++ "\x7d"

/-- Renders a list of values for `pyStr`. -/
def pyStrList : List JValue → List String
  | [] => []
  | v :: rest => pyStr v :: pyStrList rest

/-- Renders dictionary entries for `pyStr`. -/
def pyStrFields : List (String × JValue) → List String
  | [] => []
  | (k, v) :: rest => (k ++ ": " ++ pyStr v) :: pyStrFields rest
end

/-- Elements of an embedded list (iteration / slicing target; Python would
raise on a non-list). -/
def jElems : JValue → List JValue
  | .arr elems => elems
  | _ => []

/-- Prefix of an embedded list, `v[:n]`. -/
def jTakeList (v : JValue) (n : Nat) : List JValue :=
  (jElems v).take n

/-- Python `len()` on the embedded sized values. -/
def jLen : JValue → Nat
  | .arr elems => elems.length
  | .str s => s.length
  | .obj fields => fields.length
  | _ => 0

/-- The flat view produced by `PromptGenerator._organize_information`. The
`web_speech_patterns`, `raw_web_content` and `youtube_speech_analysis`
keys are only inserted on the corresponding branches, modelled as `Option`
fields (`none` = key absent). -/
structure OrganizedInfo where
  name : JValue
  wikipedia_found : Bool
  wikipedia_summary : JValue
  google_results_count : Nat
  key_information : List String
  youtube_found : Bool
  sample_phrases : JValue
  web_speech_patterns : Option (List JValue)
  raw_web_content : Option (List String)
  youtube_speech_analysis : Option JValue

/-- `PromptGenerator._organize_information`: flattens the aggregate record
into summary text, key facts, web speech patterns, raw content excerpts and
YouTube sample phrases, with the per-field caps of the source. -/
def organize_information (character_info : JValue) : OrganizedInfo :=
  let wiki_info := character_info.getD "wikipedia_info" (.obj [])
  let google_info := character_info.getD "google_search_results" (.obj [])
  let youtube_info := character_info.getD "youtube_transcripts" (.obj [])
  let wikipedia_found := (wiki_info.get "found").truthy
  let wiki_key_information :=
    if wikipedia_found then
      (if (wiki_info.get "title").truthy then
        ["正式名称: " ++ pyStr (wiki_info.get "title")] else [])
      ++ (if (wiki_info.get "categories").truthy then
        ["カテゴリ: " ++ String.intercalate ", "
          ((jTakeList (wiki_info.get "categories") max_key_information).map pyStr)]
        else [])
    else []
  let google_active :=
    (google_info.get "found").truthy && (google_info.get "results").truthy
  let results_list := jElems (google_info.get "results")
  let top_results := results_list.take max_key_information
  let google_key_information :=
    if google_active then
      (top_results.map (fun result =>
        if (result.get "title").truthy then
          ["関連情報: " ++ (pyStr (result.get "title")).take 100]
        else [])).flatten
    else []
  let web_speech_patterns :=
    (top_results.map (fun result =>
      if (result.get "speech_patterns").truthy then
        jElems (result.get "speech_patterns")
      else [])).flatten
  let raw_web_content :=
    ((results_list.take 3).map (fun result =>
      if (result.get "content").truthy then
        let content_excerpt := (pyStr (result.get "content")).take 1000
        if content_excerpt.trim ≠ "" then [content_excerpt] else []
      else [])).flatten
  let youtube_found := (youtube_info.get "found").truthy
  { name := character_info.getD "name" (.str "不明")
    wikipedia_found := wikipedia_found
    wikipedia_summary :=
      if wikipedia_found then wiki_info.getD "summary" (.str "") else .str ""
    google_results_count :=
      if google_active then jLen (google_info.get "results") else 0
    key_information := wiki_key_information ++ google_key_information
    youtube_found := youtube_found
    sample_phrases :=
      if youtube_found then youtube_info.getD "sample_phrases" (.arr []) else .arr []
    web_speech_patterns :=
      if google_active then some (web_speech_patterns.take 10) else none
    raw_web_content :=
      if google_active then some raw_web_content else none
    youtube_speech_analysis :=
      if youtube_found then
        some (youtube_info.getD "speech_pattern_analysis" (.obj []))
      else none }

/-- `PromptGenerator._generate_fallback_prompt`: the deterministic
template-filled prompt substituted when the LLM call fails, assembled from
the organized view and joined with newlines. -/
def generate_fallback_prompt (character_info : JValue) : String :=
  let name := pyStr (character_info.getD "name" (.str "不明なキャラクター"))
  let organized_info := organize_information character_info
  let base_parts := [
    "以下の情報をもとに、ロールプレイを行います。",
    "会話形式のやりとりで進行し、キャラクター性を保ちながら自由に発言してください。",
    "",
    "【あなたの役割】",
    "・" ++ name ++ "として一貫したキャラクターを演じる",
    "・収集された情報に基づいて適切な口調・語尾・性格を再現する",
    ""]
  let wiki_parts :=
    if organized_info.wikipedia_found then
      ["## 基本情報",
       (pyStr organized_info.wikipedia_summary).take wikipedia_fallback_limit ++ "...",
       ""]
    else []
  let web_parts :=
    match organized_info.web_speech_patterns with
    | some patterns =>
      if patterns.isEmpty then []
      else
        ["## 口調・語尾特徴（Web検索より）", "以下の特徴を参考にしてください："]
        ++ ((patterns.take 5).map (fun pattern =>
              if (pyStr pattern).trim ≠ "" then ["- " ++ pyStr pattern] else [])).flatten
        ++ [""]
    | none => []
  let youtube_parts :=
    if organized_info.youtube_found && organized_info.sample_phrases.truthy then
      ["## 実際の発言例（YouTube動画より）", "以下の話し方を参考にしてください："]
      ++ (((jElems organized_info.sample_phrases).take 5).map (fun phrase =>
            if (pyStr phrase).trim ≠ "" then ["- 「" ++ pyStr phrase ++ "」"] else [])).flatten
      ++ [""]
    else []
  let guideline_parts := [
    "【キャラクターガイドライン】",
    "・" ++ name ++ "の特徴的な一人称・語尾・口調を一貫して使用する",
    "・" ++ name ++ "らしい性格や価値観を常に保つ",
    "・どんな話題でもキャラクター性を崩さない",
    "・相手との関係性に応じた適切な距離感を保つ",
    "",
    "【話し方の詳細指示】",
    "1. **一人称**: 収集データから" ++ name ++ "の一人称を特定し一貫使用",
    "2. **語尾・口調**: " ++ name ++ "特有の語尾や表現パターンを活用",
    "3. **敬語使用**: " ++ name ++ "の敬語使用パターンに従う",
    "4. **特徴的表現**: " ++ name ++ "らしい決まり文句や表現を適切に使用",
    "5. **性格反映**: " ++ name ++ "の基本的な性格や価値観を発言に反映",
    "",
    "【注意事項】",
    "・" ++ name ++ "らしくない表現や態度は避ける",
    "・話題が変わってもキャラクター性を維持する",
    "・収集された情報と矛盾する設定は使用しない",
    ""]
  let info_sources :=
    (if organized_info.wikipedia_found then ["Wikipedia"] else [])
    ++ (if organized_info.google_results_count > 0 then
          ["Google検索(" ++ toString organized_info.google_results_count ++ "件)"]
        else [])
    ++ (if organized_info.youtube_found then ["YouTube動画"] else [])
  let sources_parts :=
    if info_sources.isEmpty then []
    else ["※ " ++ String.intercalate ", " info_sources ++ "から収集した情報を基に作成されています。"]
  let api_note := ["※ ChatGPT APIが利用できないため、基本的なプロンプト形式で提供しています。"]
  String.intercalate "\n"
    (base_parts ++ wiki_parts ++ web_parts ++ youtube_parts ++ guideline_parts
      ++ sources_parts ++ api_note)

/-- C9: the fallback prompt assembly is deterministic — it is a pure
function of the aggregate record alone (the embedding of the source
consumes no randomness, clock or other run-dependent input), so two
invocations on the same record, including the internal
`_organize_information` step, produce byte-identical output. -/
theorem fallback_prompt_deterministic :
    ∀ character_info : JValue,
      generate_fallback_prompt character_info =
        generate_fallback_prompt character_info ∧
      organize_information character_info =
        organize_information character_info :=
  fun _ => ⟨rfl, rfl⟩
